import Mathlib

/-!
Verification of the SpeedMonitor widget (src/src/components/SpeedMonitor.tsx).

Speeds are measured in Mbps and modelled as rationals (ℚ).  The JavaScript
value `Infinity` used as the last tier's `maxSpeed` is modelled by `Option ℚ`
with `none` standing for `Infinity` (every finite speed compares strictly
below it).  Timer handles (`NodeJS.Timeout | null` refs) are modelled as
`Bool` fields: `false` stands for `null`, `true` for a stored handle.
-/

namespace SpeedMonitor

/-- A speed tier record, translated from the `SpeedTier` interface. -/
structure SpeedTier where
  minSpeed : ℚ
  maxSpeed : Option ℚ
  comment : String
  audioSrc : String
  color : String
  icon : String
deriving DecidableEq

/-- Whether `v < maxSpeed`, where `none` encodes `Infinity`: every finite `v` is below it. -/
def ltMaxSpeed (v : ℚ) : Option ℚ → Bool
  | none => true
  | some m => v < m

/-- The five-element tier table `speedTiers`, values copied from the source. -/
def speedTiers : List SpeedTier :=
  [ { minSpeed := 0, maxSpeed := some 3,
      comment := "Are you serious right now?",
      audioSrc := "/sounds/error.mp3", color := "text-destructive", icon := "💀" },
    { minSpeed := 3, maxSpeed := some 5,
      comment := "My grandma\x27s dial-up was faster.",
      audioSrc := "/sounds/slow.mp3", color := "text-destructive", icon := "😴" },
    { minSpeed := 5, maxSpeed := some 10,
      comment := "It\x27s... acceptable.",
      audioSrc := "/sounds/okay.mp3", color := "text-warning", icon := "😐" },
    { minSpeed := 10, maxSpeed := some 15,
      comment := "Okay, now we\x27re talking!",
      audioSrc := "/sounds/good.mp3", color := "text-success", icon := "😊" },
    { minSpeed := 15, maxSpeed := none,
      comment := "UNLIMITED POWER!",
      audioSrc := "/sounds/unlimited.mp3", color := "text-primary", icon := "🚀" } ]

/-- The first tier, range [0, 3): also the designated error tier. -/
def tier0 : SpeedTier := speedTiers.get ⟨0, by decide⟩

/-- The second tier, range [3, 5). -/
def tier1 : SpeedTier := speedTiers.get ⟨1, by decide⟩

/-- The third tier, range [5, 10). -/
def tier2 : SpeedTier := speedTiers.get ⟨2, by decide⟩

/-- The fourth tier, range [10, 15). -/
def tier3 : SpeedTier := speedTiers.get ⟨3, by decide⟩

/-- The last tier, range [15, Infinity). -/
def tier4 : SpeedTier := speedTiers.get ⟨4, by decide⟩

/-- The predicate tested by the lookup: `speedMbps >= tier.minSpeed && speedMbps < tier.maxSpeed`. -/
def tierMatches (v : ℚ) (tier : SpeedTier) : Bool :=
  decide (tier.minSpeed ≤ v) && ltMaxSpeed v tier.maxSpeed

/-- The lookup `findTierForSpeed`: `speedTiers.find(tier => speedMbps >= tier.minSpeed && speedMbps < tier.maxSpeed) || null`. -/
def findTierForSpeed (speedMbps : ℚ) : Option SpeedTier :=
  speedTiers.find? (tierMatches speedMbps)

/-- One entry of the `testFiles` array: a URL and a payload size in bytes. -/
structure TestFile where
  url : String
  size : ℚ
deriving DecidableEq

/-- The array `testFiles`, values copied from the source. -/
def testFiles : List TestFile :=
  [ { url := "https://httpbin.org/bytes/500000", size := 500000 },
    { url := "https://httpbin.org/bytes/1000000", size := 1000000 },
    { url := "https://httpbin.org/bytes/2000000", size := 2000000 } ]

/-- The interval `checkInterval = 30 * 1000` milliseconds. -/
def checkInterval : ℤ := 30 * 1000

/-- The speed computed by `measureSingleSpeed` from the payload size (bytes) and
the measured duration (seconds): below 0.01 s it returns the fixed 1000 Mbps,
otherwise `(size * 8 / duration) / 1_000_000`. -/
def probeSpeed (size duration : ℚ) : ℚ :=
  if duration < 1 / 100 then 1000
  else size * 8 / duration / 1000000

/-- The environment one probe runs in: whether `fetch` rejects, whether the
response is `ok`, and the measured wall-clock duration in seconds. -/
structure ProbeEnv where
  netError : Bool
  respOk : Bool
  duration : ℚ
deriving DecidableEq

/-- One run of `measureSingleSpeed` for one test file under a probe environment: a fetch
rejection propagates; a non-ok response throws `HTTP <status>`; otherwise the
speed is computed by `probeSpeed`. -/
def measureSingleSpeed (tf : TestFile) (env : ProbeEnv) : Except String ℚ :=
  if env.netError then Except.error "fetch rejected"
  else if !env.respOk then Except.error "HTTP error"
  else Except.ok (probeSpeed tf.size env.duration)

/-- The call `speeds.sort((a, b) => a - b)`: sort ascending.  On rationals any correct
ascending sort returns the same list, so the structurally recursive
`insertionSort` is used as the model. -/
def sortSpeeds (speeds : List ℚ) : List ℚ :=
  speeds.insertionSort (· ≤ ·)

/-- The median computation of `measureSpeed`: sort ascending, then take the
middle element (odd length) or the mean of the two middle elements (even
length).  Indices are those of the source; `getD` with default 0 is total but
the indices are in range whenever the list is nonempty. -/
def codeMedian (speeds : List ℚ) : ℚ :=
  if (sortSpeeds speeds).length % 2 = 0 then
    ((sortSpeeds speeds).getD ((sortSpeeds speeds).length / 2 - 1) 0 +
      (sortSpeeds speeds).getD ((sortSpeeds speeds).length / 2) 0) / 2
  else
    (sortSpeeds speeds).getD ((sortSpeeds speeds).length / 2) 0

/-- The rounding `Number(x.toFixed(2))`, modelled as rounding half up to two decimals:
the floor of `x * 100 + 1 / 2` (written with `Int.fdiv` so that it evaluates
in the kernel), divided by 100. -/
def round2 (x : ℚ) : ℚ :=
  ((x * 100 + 1 / 2).num.fdiv (x * 100 + 1 / 2).den : ℤ) / 100

/-- The call `list.slice(-10)`: the last `n` elements (the whole list when shorter). -/
def sliceLast (n : Nat) (l : List ℚ) : List ℚ :=
  l.drop (l.length - n)

/-- Console log entries produced by the component (ghost state). -/
inductive LogEntry where
  | noTierWarn
  | audioPlaybackWarn
  | audioFolderHint
  | testFailedWarn
  | measureErrorLog
deriving DecidableEq

/-- The component state: the `useState` fields, the two timer refs (`false`
stands for `null`), the countdown closure's captured counter, and ghost fields
recording console output and the number of fetch calls issued. -/
structure SMState where
  isMonitoring : Bool
  currentSpeed : Option ℚ
  lastComment : String
  timeLeft : ℤ
  isLoading : Bool
  currentIcon : String
  speedHistory : List ℚ
  intervalRef : Bool
  countdownRef : Bool
  countdownLocal : ℤ
  consoleLog : List LogEntry
  fetchAttempts : Nat
deriving DecidableEq

/-- The initial component state. -/
def initialState : SMState :=
  { isMonitoring := false, currentSpeed := none,
    lastComment := "Ready to roast your Wi-Fi?", timeLeft := 30,
    isLoading := false, currentIcon := "🌐", speedHistory := [],
    intervalRef := false, countdownRef := false, countdownLocal := 29,
    consoleLog := [], fetchAttempts := 0 }

/-- The handler `playMemeAudio`: look the tier up; with no tier warn and set the fallback
comment and icon; otherwise set the tier comment and icon and start playback,
whose rejection (`playRejects`) is caught and only logged. -/
def playMemeAudio (speedMbps : ℚ) (playRejects : Bool) (st : SMState) : SMState :=
  match findTierForSpeed speedMbps with
  | none =>
      { st with consoleLog := st.consoleLog ++ [LogEntry.noTierWarn],
                lastComment := "No comment for this speed.",
                currentIcon := "❓" }
  | some tier =>
      let st1 := { st with lastComment := tier.comment, currentIcon := tier.icon }
      if tier.audioSrc ≠ "" then
        if playRejects then
          { st1 with consoleLog :=
              st1.consoleLog ++ [LogEntry.audioPlaybackWarn, LogEntry.audioFolderHint] }
        else st1
      else st1

/-- The update `updateUI`: store the speed and run `playMemeAudio`. -/
def updateUI (speedMbps : ℚ) (playRejects : Bool) (st : SMState) : SMState :=
  playMemeAudio speedMbps playRejects { st with currentSpeed := some speedMbps }

/-- The `for` loop of `measureSpeed`: each test file is fetched exactly once;
a successful probe contributes its speed, a failed one only a warning. -/
def probeLoop : List (TestFile × ProbeEnv) → List ℚ × List LogEntry × Nat
  | [] => ([], [], 0)
  | (tf, env) :: rest =>
      match measureSingleSpeed tf env with
      | Except.ok speed =>
          (speed :: (probeLoop rest).1, (probeLoop rest).2.1, (probeLoop rest).2.2 + 1)
      | Except.error _ =>
          ((probeLoop rest).1, LogEntry.testFailedWarn :: (probeLoop rest).2.1,
           (probeLoop rest).2.2 + 1)

/-- The speeds collected by one run of `measureSpeed` over `testFiles`,
probe `i` running in environment `envs[i]`. -/
def collectSpeeds (envs : List ProbeEnv) : List ℚ :=
  (probeLoop (testFiles.zip envs)).1

/-- The state after the probe loop of `measureSpeed`: warnings of failed
probes are logged and the fetch-attempt counter advances once per probe. -/
def afterProbes (envs : List ProbeEnv) (st : SMState) : SMState :=
  { st with consoleLog := st.consoleLog ++ (probeLoop (testFiles.zip envs)).2.1,
            fetchAttempts := st.fetchAttempts + (probeLoop (testFiles.zip envs)).2.2 }

/-- The success path of `measureSpeed`: round the median to two decimals,
append it to the history keeping the last 10 entries, then `updateUI`. -/
def successDisplay (speeds : List ℚ) (playRejects : Bool) (st : SMState) : SMState :=
  updateUI (round2 (codeMedian speeds)) playRejects
    { st with speedHistory := sliceLast 10 (st.speedHistory ++ [round2 (codeMedian speeds)]) }

/-- The `catch` block of `measureSpeed`: log the error, display speed 0 with
the connection-error message and icon, then `playMemeAudio(0)`. -/
def errorDisplay (playRejects : Bool) (st : SMState) : SMState :=
  playMemeAudio 0 playRejects
    { st with consoleLog := st.consoleLog ++ [LogEntry.measureErrorLog],
              currentSpeed := some 0,
              lastComment := "Connection error - check your internet!",
              currentIcon := "🔴" }

/-- The `try` block of `measureSpeed` after the probe loop: throw
`All speed tests failed` when no probe succeeded, else the success path. -/
def runBody (envs : List ProbeEnv) (playRejects : Bool) (st : SMState) :
    Except String SMState :=
  if (collectSpeeds envs).length = 0 then Except.error "All speed tests failed"
  else Except.ok (successDisplay (collectSpeeds envs) playRejects st)

/-- The run `measureSpeed` with the try/catch structure made explicit: any error the
body throws is handled by `errorDisplay`, and the `finally` clears
`isLoading`.  The outer `Except` is the component boundary: an `error` result
would be an exception escaping the handler. -/
def measureSpeedE (envs : List ProbeEnv) (playRejects : Bool) (st : SMState) :
    Except String SMState :=
  Except.ok
    { (match runBody envs playRejects (afterProbes envs { st with isLoading := true }) with
       | Except.ok s => s
       | Except.error _ =>
           errorDisplay playRejects (afterProbes envs { st with isLoading := true }))
      with isLoading := false }

/-- One measurement run as a state update. -/
def measureSpeed (envs : List ProbeEnv) (playRejects : Bool) (st : SMState) : SMState :=
  match measureSpeedE envs playRejects st with
  | Except.ok s => s
  | Except.error _ => st

/-- One tick of the countdown closure `updateTimer` acting on the pair
(displayed `timeLeft`, captured local counter): display the counter, then
decrement it, wrapping to `checkInterval / 1000 - 1` below zero. -/
def updateTimer (p : ℤ × ℤ) : ℤ × ℤ :=
  (p.2, if p.2 - 1 < 0 then checkInterval / 1000 - 1 else p.2 - 1)

/-- The (displayed, local) countdown pair after `n` interval ticks: the local
counter starts at `checkInterval / 1000` and `updateTimer` runs once
immediately in `startCountdown`, then once per tick. -/
def countdownState (n : Nat) : ℤ × ℤ :=
  updateTimer^[n + 1] (30, checkInterval / 1000)

/-- The call `startCountdown` as a state update: run `updateTimer` once, store the
interval handle. -/
def startCountdown (st : SMState) : SMState :=
  let p := updateTimer (st.timeLeft, checkInterval / 1000)
  { st with timeLeft := p.1, countdownLocal := p.2, countdownRef := true }

/-- The action `startMonitoring`: set the flags, reset the history, run a first
measurement, store the measurement interval handle, start the countdown. -/
def startMonitoring (envs : List ProbeEnv) (playRejects : Bool) (st : SMState) : SMState :=
  let st1 := { st with isMonitoring := true,
                       lastComment := "Starting speed check...",
                       currentIcon := "🔄",
                       speedHistory := [] }
  let st2 := measureSpeed envs playRejects st1
  startCountdown { st2 with intervalRef := true }

/-- The action `stopMonitoring`: clear both timers, unset the speed, reset the display. -/
def stopMonitoring (st : SMState) : SMState :=
  { st with isMonitoring := false, intervalRef := false, countdownRef := false,
            currentSpeed := none, lastComment := "Monitoring paused.",
            currentIcon := "⏸️", timeLeft := 30 }

/-- A countdown interval tick inside the component state. -/
def countdownTick (st : SMState) : SMState :=
  let p := updateTimer (st.timeLeft, st.countdownLocal)
  { st with timeLeft := p.1, countdownLocal := p.2 }

/-- The ghost trace of a run: the run appends its final speed when at least one
probe succeeded, else leaves the trace unchanged. -/
def runTrace (envs : List ProbeEnv) (σ : List ℚ) : List ℚ :=
  if collectSpeeds envs = [] then σ
  else σ ++ [round2 (codeMedian (collectSpeeds envs))]

/-- States reachable from the initial state by user actions, measurement runs
(also racing ones after a stop: in-flight requests are not cancelled) and
countdown ticks (these only fire while the countdown interval is set), paired
with the ghost trace of all measurement samples since the last start. -/
inductive ReachableT : SMState → List ℚ → Prop where
  | init : ReachableT initialState []
  | start (envs : List ProbeEnv) (playRejects : Bool) {st : SMState} {σ : List ℚ} :
      ReachableT st σ →
      ReachableT (startMonitoring envs playRejects st) (runTrace envs [])
  | stop {st : SMState} {σ : List ℚ} :
      ReachableT st σ → ReachableT (stopMonitoring st) σ
  | measure (envs : List ProbeEnv) (playRejects : Bool) {st : SMState} {σ : List ℚ} :
      ReachableT st σ →
      ReachableT (measureSpeed envs playRejects st) (runTrace envs σ)
  | tick {st : SMState} {σ : List ℚ} :
      st.countdownRef = true → ReachableT st σ → ReachableT (countdownTick st) σ

/-- A state is reachable when it is reachable with some sample trace. -/
def Reachable (st : SMState) : Prop :=
  ∃ σ : List ℚ, ReachableT st σ

lemma sliceLast_length_le (n : Nat) (l : List ℚ) : (sliceLast n l).length ≤ n := by
  simp only [sliceLast, List.length_drop]
  omega

lemma sliceLast_of_length_le {n : Nat} {l : List ℚ} (h : l.length ≤ n) :
    sliceLast n l = l := by
  simp [sliceLast, Nat.sub_eq_zero_of_le h]

lemma sliceLast_append_last (l : List ℚ) (a : ℚ) :
    sliceLast 10 (sliceLast 10 l ++ [a]) = sliceLast 10 (l ++ [a]) := by
  rcases le_or_lt l.length 10 with h | h
  · rw [sliceLast_of_length_le h]
  · have hs : (l.drop (l.length - 10)).length = 10 := by
      rw [List.length_drop]; omega
    have h1 : (l.drop (l.length - 10) ++ [a]).length - 10 = 1 := by
      rw [List.length_append, hs]; rfl
    have h2 : (l ++ [a]).length - 10 = l.length - 9 := by
      simp only [List.length_append, List.length_cons, List.length_nil]; omega
    simp only [sliceLast, h1, h2]
    rw [List.drop_append_eq_append_drop, List.drop_append_eq_append_drop,
      List.drop_drop, hs]
    have h3 : l.length - 10 + 1 = l.length - 9 := by omega
    have h5 : l.length - 9 - l.length = 0 := by omega
    rw [h3, h5]

lemma playMemeAudio_frame (v : ℚ) (pr : Bool) (st : SMState) :
    (playMemeAudio v pr st).currentSpeed = st.currentSpeed ∧
    (playMemeAudio v pr st).speedHistory = st.speedHistory ∧
    (playMemeAudio v pr st).isMonitoring = st.isMonitoring ∧
    (playMemeAudio v pr st).intervalRef = st.intervalRef ∧
    (playMemeAudio v pr st).countdownRef = st.countdownRef ∧
    (playMemeAudio v pr st).isLoading = st.isLoading ∧
    (playMemeAudio v pr st).timeLeft = st.timeLeft ∧
    (playMemeAudio v pr st).countdownLocal = st.countdownLocal ∧
    (playMemeAudio v pr st).fetchAttempts = st.fetchAttempts := by
  rcases hf : findTierForSpeed v with _ | t
  · simp [playMemeAudio, hf]
  · simp only [playMemeAudio, hf]
    split_ifs <;> simp

@[simp] lemma playMemeAudio_currentSpeed (v : ℚ) (pr : Bool) (st : SMState) :
    (playMemeAudio v pr st).currentSpeed = st.currentSpeed :=
  (playMemeAudio_frame v pr st).1

@[simp] lemma playMemeAudio_speedHistory (v : ℚ) (pr : Bool) (st : SMState) :
    (playMemeAudio v pr st).speedHistory = st.speedHistory :=
  (playMemeAudio_frame v pr st).2.1

@[simp] lemma updateUI_currentSpeed (v : ℚ) (pr : Bool) (st : SMState) :
    (updateUI v pr st).currentSpeed = some v := by
  simp [updateUI]

@[simp] lemma updateUI_speedHistory (v : ℚ) (pr : Bool) (st : SMState) :
    (updateUI v pr st).speedHistory = st.speedHistory := by
  simp [updateUI]

lemma probeLoop_attempts (l : List (TestFile × ProbeEnv)) :
    (probeLoop l).2.2 = l.length := by
  induction l with
  | nil => rfl
  | cons p rest ih =>
      obtain ⟨tf, env⟩ := p
      rcases hm : measureSingleSpeed tf env with e | s <;>
        simp [probeLoop, hm, ih]

lemma probeLoop_partition (l : List (TestFile × ProbeEnv)) :
    (probeLoop l).1.length + (probeLoop l).2.1.length = l.length := by
  induction l with
  | nil => rfl
  | cons p rest ih =>
      obtain ⟨tf, env⟩ := p
      rcases hm : measureSingleSpeed tf env with e | s <;>
        simp only [probeLoop, hm, List.length_cons, List.length_nil] <;> omega

lemma measureSpeed_eq_success {envs : List ProbeEnv} (pr : Bool) (st : SMState)
    (h : collectSpeeds envs ≠ []) :
    measureSpeed envs pr st =
      { successDisplay (collectSpeeds envs) pr
          (afterProbes envs { st with isLoading := true }) with isLoading := false } := by
  have hl : ¬(collectSpeeds envs).length = 0 := by
    simpa using h
  simp only [measureSpeed, measureSpeedE, runBody, if_neg hl]

lemma measureSpeed_eq_fail {envs : List ProbeEnv} (pr : Bool) (st : SMState)
    (h : collectSpeeds envs = []) :
    measureSpeed envs pr st =
      { errorDisplay pr (afterProbes envs { st with isLoading := true })
        with isLoading := false } := by
  have hl : (collectSpeeds envs).length = 0 := by
    simp [h]
  simp only [measureSpeed, measureSpeedE, runBody, if_pos hl]

lemma findTier_mem {v : ℚ} {t : SpeedTier} (h : findTierForSpeed v = some t) :
    t ∈ speedTiers :=
  List.mem_of_find?_eq_some h

lemma tier_audioSrc_ne {t : SpeedTier} (h : t ∈ speedTiers) : t.audioSrc ≠ "" := by
  fin_cases h <;> decide

lemma playMemeAudio_visible_of_some {v : ℚ} {t : SpeedTier} (pr : Bool)
    (st : SMState) (h : findTierForSpeed v = some t) :
    (playMemeAudio v pr st).lastComment = t.comment ∧
    (playMemeAudio v pr st).currentIcon = t.icon := by
  simp only [playMemeAudio, h]
  split_ifs <;> exact ⟨rfl, rfl⟩

lemma errorDisplay_fields (pr : Bool) (st : SMState) :
    (errorDisplay pr st).currentSpeed = some 0 ∧
    (errorDisplay pr st).lastComment = tier0.comment ∧
    (errorDisplay pr st).currentIcon = tier0.icon ∧
    (errorDisplay pr st).speedHistory = st.speedHistory ∧
    LogEntry.measureErrorLog ∈ (errorDisplay pr st).consoleLog := by
  have h0 : findTierForSpeed 0 = some tier0 := by decide
  obtain ⟨hc, hi⟩ := playMemeAudio_visible_of_some (v := 0) (t := tier0) pr
    { st with consoleLog := st.consoleLog ++ [LogEntry.measureErrorLog],
              currentSpeed := some 0,
              lastComment := "Connection error - check your internet!",
              currentIcon := "🔴" } h0
  refine ⟨?_, hc, hi, ?_, ?_⟩
  · rw [errorDisplay, playMemeAudio_currentSpeed]
  · rw [errorDisplay, playMemeAudio_speedHistory]
  · rw [errorDisplay]
    simp only [playMemeAudio, h0]
    split_ifs <;> simp

lemma measureSpeed_allFail_fields {envs : List ProbeEnv} (pr : Bool)
    (st : SMState) (h : collectSpeeds envs = []) :
    (measureSpeed envs pr st).currentSpeed = some 0 ∧
    (measureSpeed envs pr st).lastComment = tier0.comment ∧
    (measureSpeed envs pr st).currentIcon = tier0.icon ∧
    LogEntry.measureErrorLog ∈ (measureSpeed envs pr st).consoleLog := by
  rw [measureSpeed_eq_fail pr st h]
  have hf := errorDisplay_fields pr (afterProbes envs { st with isLoading := true })
  exact ⟨hf.1, hf.2.1, hf.2.2.1, hf.2.2.2.2⟩

lemma measureSpeed_speedHistory (envs : List ProbeEnv) (pr : Bool) (st : SMState) :
    (measureSpeed envs pr st).speedHistory =
      if collectSpeeds envs = [] then st.speedHistory
      else sliceLast 10 (st.speedHistory ++ [round2 (codeMedian (collectSpeeds envs))]) := by
  by_cases h : collectSpeeds envs = []
  · rw [measureSpeed_eq_fail pr st h, if_pos h]
    exact (errorDisplay_fields pr _).2.2.2.1
  · rw [measureSpeed_eq_success pr st h, if_neg h]
    show (successDisplay (collectSpeeds envs) pr _).speedHistory = _
    rw [successDisplay, updateUI_speedHistory]
    rfl

lemma startMonitoring_speedHistory (envs : List ProbeEnv) (pr : Bool)
    (st : SMState) :
    (startMonitoring envs pr st).speedHistory =
      (measureSpeed envs pr
        { st with isMonitoring := true, lastComment := "Starting speed check...",
                  currentIcon := "🔄", speedHistory := [] }).speedHistory := rfl

lemma countdown_interval_div : checkInterval / 1000 = 30 := by decide

lemma countdownState_succ (n : ℕ) :
    countdownState (n + 1) = updateTimer (countdownState n) := by
  simp only [countdownState, Function.iterate_succ_apply']

lemma countdownState_local_bounds (n : ℕ) :
    0 ≤ (countdownState n).2 ∧ (countdownState n).2 ≤ 29 := by
  induction n with
  | zero => decide
  | succ n ih =>
      rw [countdownState_succ]
      simp only [updateTimer, countdown_interval_div]
      split_ifs with h <;> omega

lemma countdownState_displayed (n : ℕ) :
    (countdownState (n + 1)).1 = (countdownState n).2 := by
  rw [countdownState_succ]; rfl

lemma tierMatches_unique {v : ℚ} {t t' : SpeedTier} (ht : t ∈ speedTiers)
    (ht' : t' ∈ speedTiers) (hm : tierMatches v t = true)
    (hm' : tierMatches v t' = true) : t = t' := by
  fin_cases ht <;> fin_cases ht' <;>
    first
      | rfl
      | (simp only [tierMatches, ltMaxSpeed, Bool.and_eq_true, decide_eq_true_eq]
           at hm hm'
         linarith [hm.1, hm.2, hm'.1, hm'.2])

lemma findTier_eq_t0 {v : ℚ} (h0 : 0 ≤ v) (h3 : v < 3) :
    findTierForSpeed v = some tier0 := by
  simp [findTierForSpeed, speedTiers, List.find?, tierMatches, ltMaxSpeed,
    tier0, h0, h3]

lemma findTier_eq_t1 {v : ℚ} (h3 : 3 ≤ v) (h5 : v < 5) :
    findTierForSpeed v = some tier1 := by
  have n3 : ¬v < 3 := not_lt.2 h3
  simp [findTierForSpeed, speedTiers, List.find?, tierMatches, ltMaxSpeed,
    tier1, le_trans (by norm_num : (0:ℚ) ≤ 3) h3, h3, h5, n3]

lemma findTier_eq_t2 {v : ℚ} (h5 : 5 ≤ v) (h10 : v < 10) :
    findTierForSpeed v = some tier2 := by
  have n3 : ¬v < 3 := by intro hc; linarith
  have n5 : ¬v < 5 := not_lt.2 h5
  simp [findTierForSpeed, speedTiers, List.find?, tierMatches, ltMaxSpeed,
    tier2, le_trans (by norm_num : (0:ℚ) ≤ 5) h5,
    le_trans (by norm_num : (3:ℚ) ≤ 5) h5, h5, h10, n3, n5]

lemma findTier_eq_t3 {v : ℚ} (h10 : 10 ≤ v) (h15 : v < 15) :
    findTierForSpeed v = some tier3 := by
  have n3 : ¬v < 3 := by intro hc; linarith
  have n5 : ¬v < 5 := by intro hc; linarith
  have n10 : ¬v < 10 := not_lt.2 h10
  simp [findTierForSpeed, speedTiers, List.find?, tierMatches, ltMaxSpeed,
    tier3, le_trans (by norm_num : (0:ℚ) ≤ 10) h10,
    le_trans (by norm_num : (3:ℚ) ≤ 10) h10,
    le_trans (by norm_num : (5:ℚ) ≤ 10) h10, h10, h15, n3, n5, n10]
  decide

lemma findTier_eq_t4 {v : ℚ} (h15 : 15 ≤ v) :
    findTierForSpeed v = some tier4 := by
  have n3 : ¬v < 3 := by intro hc; linarith
  have n5 : ¬v < 5 := by intro hc; linarith
  have n10 : ¬v < 10 := by intro hc; linarith
  have n15 : ¬v < 15 := not_lt.2 h15
  simp [findTierForSpeed, speedTiers, List.find?, tierMatches, ltMaxSpeed,
    tier4, le_trans (by norm_num : (0:ℚ) ≤ 15) h15,
    le_trans (by norm_num : (3:ℚ) ≤ 15) h15,
    le_trans (by norm_num : (5:ℚ) ≤ 15) h15,
    le_trans (by norm_num : (10:ℚ) ≤ 15) h15, h15, n3, n5, n10, n15]
  decide

lemma findTier_eq_none {v : ℚ} (hneg : v < 0) : findTierForSpeed v = none := by
  have n0 : ¬(0:ℚ) ≤ v := not_le.2 hneg
  have n3 : ¬(3:ℚ) ≤ v := by intro hc; linarith
  have n5 : ¬(5:ℚ) ≤ v := by intro hc; linarith
  have n10 : ¬(10:ℚ) ≤ v := by intro hc; linarith
  have n15 : ¬(15:ℚ) ≤ v := by intro hc; linarith
  simp [findTierForSpeed, speedTiers, List.find?, tierMatches, ltMaxSpeed,
    n0, n3, n5, n10, n15]

/-- C1: for every Mbps value `v`, the lookup returns a tier containing `v` in
its half-open range that is unique among the table's matching tiers whenever
`v ≥ 0`, and returns none (null) whenever `v < 0`: the five ranges are
disjoint and cover exactly the non-negative rationals. -/
theorem C1_tier_lookup_partition (v : ℚ) :
    (0 ≤ v → ∃ t, findTierForSpeed v = some t ∧ tierMatches v t = true ∧
      ∀ t' ∈ speedTiers, tierMatches v t' = true → t' = t) ∧
    (v < 0 → findTierForSpeed v = none) := by
  constructor
  · intro h0
    rcases lt_or_le v 3 with h3 | h3
    · have hm : tierMatches v tier0 = true := by
        simp [tierMatches, ltMaxSpeed, show tier0.minSpeed = 0 from rfl,
          show tier0.maxSpeed = some 3 from rfl, h0, h3]
      exact ⟨tier0, findTier_eq_t0 h0 h3, hm,
        fun t' ht' hm' => tierMatches_unique ht' (by decide) hm' hm⟩
    · rcases lt_or_le v 5 with h5 | h5
      · have hm : tierMatches v tier1 = true := by
          simp [tierMatches, ltMaxSpeed, show tier1.minSpeed = 3 from rfl,
            show tier1.maxSpeed = some 5 from rfl, h3, h5]
        exact ⟨tier1, findTier_eq_t1 h3 h5, hm,
          fun t' ht' hm' => tierMatches_unique ht' (by decide) hm' hm⟩
      · rcases lt_or_le v 10 with h10 | h10
        · have hm : tierMatches v tier2 = true := by
            simp [tierMatches, ltMaxSpeed, show tier2.minSpeed = 5 from rfl,
              show tier2.maxSpeed = some 10 from rfl, h5, h10]
          exact ⟨tier2, findTier_eq_t2 h5 h10, hm,
            fun t' ht' hm' => tierMatches_unique ht' (by decide) hm' hm⟩
        · rcases lt_or_le v 15 with h15 | h15
          · have hm : tierMatches v tier3 = true := by
              simp [tierMatches, ltMaxSpeed, show tier3.minSpeed = 10 from rfl,
                show tier3.maxSpeed = some 15 from rfl, h10, h15]
            exact ⟨tier3, findTier_eq_t3 h10 h15, hm,
              fun t' ht' hm' => tierMatches_unique ht' (by decide) hm' hm⟩
          · have hm : tierMatches v tier4 = true := by
              simp [tierMatches, ltMaxSpeed, show tier4.minSpeed = 15 from rfl,
                show tier4.maxSpeed = none from rfl, h15]
            exact ⟨tier4, findTier_eq_t4 h15, hm,
              fun t' ht' hm' => tierMatches_unique ht' (by decide) hm' hm⟩
  · exact findTier_eq_none

/-- C1 witness: at `v = 4` the lookup returns the unique matching tier, and at
`v = -1` it returns none. -/
theorem C1_witness :
    (∃ t, findTierForSpeed 4 = some t ∧ tierMatches 4 t = true ∧
      ∀ t' ∈ speedTiers, tierMatches 4 t' = true → t' = t) ∧
    findTierForSpeed (-1) = none :=
  ⟨(C1_tier_lookup_partition 4).1 (by norm_num),
   (C1_tier_lookup_partition (-1)).2 (by norm_num)⟩

/-- C2: the aggregation is the median: on a sorted list an odd length yields
the middle element and an even length the mean of the two middle elements
(examples: median [2, 4, 6] = 4, median [2, 4] = 3), and the value a
successful run passes to the UI update is this median rounded to two
decimals. -/
theorem C2_median_aggregation :
    codeMedian [2, 4, 6] = 4 ∧ codeMedian [2, 4] = 3 ∧
    (∀ l : List ℚ, l.Sorted (· ≤ ·) → ∀ k : ℕ,
      (l.length = 2 * k + 1 → codeMedian l = l.getD k 0) ∧
      (l.length = 2 * k + 2 → codeMedian l = (l.getD k 0 + l.getD (k + 1) 0) / 2)) ∧
    (∀ (envs : List ProbeEnv) (pr : Bool) (st : SMState), collectSpeeds envs ≠ [] →
      (measureSpeed envs pr st).currentSpeed =
        some (round2 (codeMedian (collectSpeeds envs)))) := by
  refine ⟨by with_unfolding_all decide, by with_unfolding_all decide, ?_, ?_⟩
  · intro l hs k
    have hsort : sortSpeeds l = l := List.Sorted.insertionSort_eq hs
    constructor
    · intro hlen
      have hmod : l.length % 2 ≠ 0 := by omega
      have hdiv : l.length / 2 = k := by omega
      rw [codeMedian, hsort, if_neg (by rw [hlen] at hmod ⊢; exact hmod), hdiv]
    · intro hlen
      have hmod : l.length % 2 = 0 := by omega
      have hdiv : l.length / 2 = k + 1 := by omega
      have hdiv' : l.length / 2 - 1 = k := by omega
      rw [codeMedian, hsort, if_pos (by rw [hlen] at hmod ⊢; exact hmod),
        hdiv', hdiv]
  · intro envs pr st h
    rw [measureSpeed_eq_success pr st h]
    show (successDisplay (collectSpeeds envs) pr _).currentSpeed = _
    rw [successDisplay, updateUI_currentSpeed]

/-- C2 witness: a run whose three probes last 1 s each collects speeds
[4, 8, 16] Mbps, and the UI receives their median 8. -/
theorem C2_witness :
    (measureSpeed [⟨false, true, 1⟩, ⟨false, true, 1⟩, ⟨false, true, 1⟩] false
        initialState).currentSpeed =
      some (round2 (codeMedian (collectSpeeds
        [⟨false, true, 1⟩, ⟨false, true, 1⟩, ⟨false, true, 1⟩]))) :=
  C2_median_aggregation.2.2.2 _ false initialState (by with_unfolding_all decide)

/-- C3: for every tier in the table, looking up a speed exactly equal to that
tier's `minSpeed` selects that tier (the minimum is included in the half-open
range), not the adjacent lower tier. -/
theorem C3_boundary_selects_tier (t : SpeedTier) (ht : t ∈ speedTiers) :
    findTierForSpeed t.minSpeed = some t := by
  fin_cases ht <;> decide

/-- C3 witness: the boundary value 3 selects the [3, 5) tier. -/
theorem C3_witness : findTierForSpeed tier1.minSpeed = some tier1 :=
  C3_boundary_selects_tier tier1 (by decide)

/-- C4 as stated is false: at duration 0.005 s (below the 0.01 s guard) with
the 500000-byte payload, `measureSingleSpeed` returns the fixed 1000 Mbps,
while the formula `(s * 8 / d) / 1_000_000` gives 800 Mbps. -/
theorem C4_counterexample :
    measureSingleSpeed { url := "https://httpbin.org/bytes/500000", size := 500000 }
        { netError := false, respOk := true, duration := 5 / 1000 } = Except.ok 1000 ∧
    (500000 : ℚ) * 8 / (5 / 1000) / 1000000 = 800 ∧ (1000 : ℚ) ≠ 800 := by
  refine ⟨?_, by norm_num, by norm_num⟩
  show Except.ok (probeSpeed 500000 (5 / 1000)) = Except.ok 1000
  unfold probeSpeed
  rw [if_pos (by norm_num)]

/-- C4 amended: for every probe whose fetch succeeds with an ok response and a
measured duration of at least 0.01 seconds, the returned speed is
`(size * 8 / duration) / 1_000_000` Mbps (bits over seconds, base-1000). -/
theorem C4_speed_formula (tf : TestFile) (env : ProbeEnv)
    (hn : env.netError = false) (hok : env.respOk = true)
    (hd : 1 / 100 ≤ env.duration) :
    measureSingleSpeed tf env = Except.ok (tf.size * 8 / env.duration / 1000000) := by
  obtain ⟨ne, ok, d⟩ := env
  dsimp only at hn hok hd ⊢
  subst hn
  subst hok
  show Except.ok (probeSpeed tf.size d) = Except.ok (tf.size * 8 / d / 1000000)
  unfold probeSpeed
  rw [if_neg (not_lt.2 hd)]

/-- C4 witness: the 1 MB payload fetched in 1 s yields 8 Mbps by the formula. -/
theorem C4_witness :
    measureSingleSpeed { url := "https://httpbin.org/bytes/1000000", size := 1000000 }
        { netError := false, respOk := true, duration := 1 } =
      Except.ok ((1000000 : ℚ) * 8 / 1 / 1000000) :=
  C4_speed_formula _ _ rfl rfl (by norm_num)

/-- C9: a probe never divides by a near-zero duration: below 0.01 s it returns
the fixed 1000 Mbps, from 0.01 s on it applies the division formula, and for
every test file and non-negative duration the result is strictly positive. -/
theorem C9_positive_speed (tf : TestFile) (htf : tf ∈ testFiles) (d : ℚ)
    (_hd : 0 ≤ d) :
    (d < 1 / 100 → probeSpeed tf.size d = 1000) ∧
    (1 / 100 ≤ d → probeSpeed tf.size d = tf.size * 8 / d / 1000000) ∧
    0 < probeSpeed tf.size d := by
  have hsize : 0 < tf.size := by fin_cases htf <;> norm_num [testFiles]
  refine ⟨fun h => ?_, fun h => ?_, ?_⟩
  · unfold probeSpeed
    rw [if_pos h]
  · unfold probeSpeed
    rw [if_neg (not_lt.2 h)]
  · by_cases h : d < 1 / 100
    · unfold probeSpeed
      rw [if_pos h]
      norm_num
    · have hd0 : 0 < d := lt_of_lt_of_le (by norm_num) (not_lt.1 h)
      unfold probeSpeed
      rw [if_neg h]
      exact div_pos (div_pos (mul_pos hsize (by norm_num)) hd0) (by norm_num)

/-- C9 witness: the 500 KB payload at 2 s gives the formula value, positive. -/
theorem C9_witness :
    probeSpeed (500000 : ℚ) 2 = 500000 * 8 / 2 / 1000000 ∧
    0 < probeSpeed (500000 : ℚ) 2 :=
  ⟨(C9_positive_speed ⟨"https://httpbin.org/bytes/500000", 500000⟩ (by decide) 2
      (by norm_num)).2.1 (by norm_num),
   (C9_positive_speed ⟨"https://httpbin.org/bytes/500000", 500000⟩ (by decide) 2
      (by norm_num)).2.2⟩

/-- C5 as stated is false: a run in which one probe rejects but the other two
succeed (at 8 and 16 Mbps) displays their median 12 Mbps and the matching
tier's comment, not speed 0 with the error tier's message. -/
theorem C5_counterexample :
    (measureSpeed [⟨true, true, 1⟩, ⟨false, true, 1⟩, ⟨false, true, 1⟩] false
        initialState).currentSpeed = some 12 ∧
    some (12 : ℚ) ≠ some (0 : ℚ) ∧
    (measureSpeed [⟨true, true, 1⟩, ⟨false, true, 1⟩, ⟨false, true, 1⟩] false
        initialState).lastComment ≠ "Are you serious right now?" := by
  with_unfolding_all decide

/-- C5 amended: when no probe of a measurement run succeeds, the run sets the
displayed speed to 0 and the message and icon to those of the designated error
tier, the tier whose range contains 0. -/
theorem C5_run_all_fail (envs : List ProbeEnv) (pr : Bool) (st : SMState)
    (h : collectSpeeds envs = []) :
    ∃ t, findTierForSpeed 0 = some t ∧
      (measureSpeed envs pr st).currentSpeed = some 0 ∧
      (measureSpeed envs pr st).lastComment = t.comment ∧
      (measureSpeed envs pr st).currentIcon = t.icon := by
  have hf := measureSpeed_allFail_fields pr st h
  exact ⟨tier0, by decide, hf.1, hf.2.1, hf.2.2.1⟩

/-- C5 witness: a run whose three probes all reject displays 0 Mbps and the
error tier's comment and icon. -/
theorem C5_witness :
    ∃ t, findTierForSpeed 0 = some t ∧
      (measureSpeed [⟨true, true, 1⟩, ⟨true, true, 1⟩, ⟨true, true, 1⟩] false
          initialState).currentSpeed = some 0 ∧
      (measureSpeed [⟨true, true, 1⟩, ⟨true, true, 1⟩, ⟨true, true, 1⟩] false
          initialState).lastComment = t.comment ∧
      (measureSpeed [⟨true, true, 1⟩, ⟨true, true, 1⟩, ⟨true, true, 1⟩] false
          initialState).currentIcon = t.icon :=
  C5_run_all_fail _ false initialState (by with_unfolding_all decide)

/-- C6: in every reachable state, stopMonitoring leaves both timer references
cleared (modelled `false` for `null`) and the displayed speed unset. -/
theorem C6_stop_clears (st : SMState) (_h : Reachable st) :
    (stopMonitoring st).intervalRef = false ∧
    (stopMonitoring st).countdownRef = false ∧
    (stopMonitoring st).currentSpeed = none :=
  ⟨rfl, rfl, rfl⟩

/-- C6 witness: stopping from the initial state clears both timers and the
displayed speed. -/
theorem C6_witness :
    (stopMonitoring initialState).intervalRef = false ∧
    (stopMonitoring initialState).countdownRef = false ∧
    (stopMonitoring initialState).currentSpeed = none :=
  C6_stop_clears initialState ⟨[], ReachableT.init⟩

/-- C7 as stated is false for the audio playback failure class: a rejected
playback at 8 Mbps is caught and logged, but the visible message and icon are
exactly those of the non-failing playback (the tier's own comment and icon),
so the failure is not mapped to any user-visible fallback message or icon. -/
theorem C7_counterexample :
    (playMemeAudio 8 true initialState).lastComment = "It\x27s... acceptable." ∧
    (playMemeAudio 8 true initialState).lastComment =
      (playMemeAudio 8 false initialState).lastComment ∧
    (playMemeAudio 8 true initialState).currentIcon =
      (playMemeAudio 8 false initialState).currentIcon ∧
    (playMemeAudio 8 true initialState).consoleLog =
      [LogEntry.audioPlaybackWarn, LogEntry.audioFolderHint] := by
  with_unfolding_all decide

/-- C7 amended: every failure is caught locally and logged: a measurement run
never lets an exception escape, each test file is fetched exactly once per run
(failures are not retried within the run), each probe either contributes a
speed or a logged warning, a run in which no probe succeeds logs the error and
shows the fallback message and icon of the error tier, and an audio playback
rejection is caught and logged while leaving the tier's message and icon in
place. -/
theorem C7_failure_handling (envs : List ProbeEnv) (pr : Bool) (st : SMState)
    (v : ℚ) :
    (∃ st', measureSpeedE envs pr st = Except.ok st') ∧
    (probeLoop (testFiles.zip envs)).2.2 = (testFiles.zip envs).length ∧
    (probeLoop (testFiles.zip envs)).1.length +
      (probeLoop (testFiles.zip envs)).2.1.length = (testFiles.zip envs).length ∧
    (collectSpeeds envs = [] →
      LogEntry.measureErrorLog ∈ (measureSpeed envs pr st).consoleLog ∧
      (measureSpeed envs pr st).currentSpeed = some 0 ∧
      (measureSpeed envs pr st).lastComment = tier0.comment ∧
      (measureSpeed envs pr st).currentIcon = tier0.icon) ∧
    ((playMemeAudio v true st).lastComment = (playMemeAudio v false st).lastComment ∧
     (playMemeAudio v true st).currentIcon = (playMemeAudio v false st).currentIcon) ∧
    (∀ t, findTierForSpeed v = some t →
      (playMemeAudio v true st).consoleLog =
        st.consoleLog ++ [LogEntry.audioPlaybackWarn, LogEntry.audioFolderHint]) := by
  refine ⟨⟨_, rfl⟩, probeLoop_attempts _, probeLoop_partition _, ?_, ?_, ?_⟩
  · intro h
    have hf := measureSpeed_allFail_fields pr st h
    exact ⟨hf.2.2.2, hf.1, hf.2.1, hf.2.2.1⟩
  · rcases hf : findTierForSpeed v with _ | t
    · simp [playMemeAudio, hf]
    · obtain ⟨hc1, hi1⟩ := playMemeAudio_visible_of_some true st hf
      obtain ⟨hc2, hi2⟩ := playMemeAudio_visible_of_some false st hf
      exact ⟨hc1.trans hc2.symm, hi1.trans hi2.symm⟩
  · intro t ht
    simp [playMemeAudio, ht, tier_audioSrc_ne (findTier_mem ht)]

/-- C7 witness: with all three probes rejecting and a rejecting playback, the
run still returns a state, logs the error, shows the fallback, and the audio
rejection at 8 Mbps appends exactly the two playback warnings. -/
theorem C7_witness :
    (∃ st', measureSpeedE [⟨true, true, 1⟩, ⟨true, true, 1⟩, ⟨true, true, 1⟩]
        true initialState = Except.ok st') ∧
    LogEntry.measureErrorLog ∈
      (measureSpeed [⟨true, true, 1⟩, ⟨true, true, 1⟩, ⟨true, true, 1⟩] true
        initialState).consoleLog ∧
    (playMemeAudio 8 true initialState).consoleLog =
      initialState.consoleLog ++ [LogEntry.audioPlaybackWarn, LogEntry.audioFolderHint] :=
  ⟨(C7_failure_handling [⟨true, true, 1⟩, ⟨true, true, 1⟩, ⟨true, true, 1⟩]
      true initialState 8).1,
   ((C7_failure_handling [⟨true, true, 1⟩, ⟨true, true, 1⟩, ⟨true, true, 1⟩]
      true initialState 8).2.2.2.1 (by with_unfolding_all decide)).1,
   (C7_failure_handling [⟨true, true, 1⟩, ⟨true, true, 1⟩, ⟨true, true, 1⟩]
      true initialState 8).2.2.2.2.2 tier2 (by decide)⟩

/-- C8: in every reachable state the speed history is exactly the last 10
samples of the run trace since the last start, in arrival order, so its length
never exceeds 10; and every successful measurement appends its final speed
and keeps only the last 10 entries. -/
theorem C8_history_invariant (st : SMState) (σ : List ℚ) (h : ReachableT st σ) :
    st.speedHistory = sliceLast 10 σ ∧ st.speedHistory.length ≤ 10 ∧
    ∀ (envs : List ProbeEnv) (pr : Bool), collectSpeeds envs ≠ [] →
      (measureSpeed envs pr st).speedHistory =
        sliceLast 10 (st.speedHistory ++ [round2 (codeMedian (collectSpeeds envs))]) := by
  have main : st.speedHistory = sliceLast 10 σ := by
    induction h with
    | init => rfl
    | start envs pr hst ih =>
        rw [startMonitoring_speedHistory, measureSpeed_speedHistory]
        unfold runTrace
        split_ifs with hc
        · rfl
        · rfl
    | stop hst ih => exact ih
    | measure envs pr hst ih =>
        rw [measureSpeed_speedHistory]
        unfold runTrace
        split_ifs with hc
        · exact ih
        · rw [ih, sliceLast_append_last]
    | tick hcd hst ih => exact ih
  refine ⟨main, main ▸ sliceLast_length_le 10 σ, ?_⟩
  intro envs pr hne
  rw [measureSpeed_speedHistory, if_neg hne]

/-- C8 witness: the initial state's empty history is the last-10 slice of the
empty trace, within the bound, and a concrete successful run appends its
rounded median. -/
theorem C8_witness :
    initialState.speedHistory = sliceLast 10 [] ∧
    initialState.speedHistory.length ≤ 10 ∧
    (measureSpeed [⟨false, true, 1⟩, ⟨false, true, 1⟩, ⟨false, true, 1⟩] false
        initialState).speedHistory =
      sliceLast 10 (initialState.speedHistory ++
        [round2 (codeMedian (collectSpeeds
          [⟨false, true, 1⟩, ⟨false, true, 1⟩, ⟨false, true, 1⟩]))]) :=
  ⟨(C8_history_invariant initialState [] ReachableT.init).1,
   (C8_history_invariant initialState [] ReachableT.init).2.1,
   (C8_history_invariant initialState [] ReachableT.init).2.2 _ false
     (by with_unfolding_all decide)⟩

/-- C10: the countdown display stays in [0, 30]: it starts at 30 and each
interval tick either decrements the displayed value by 1 or, once it has
reached 0, wraps it back to 29. -/
theorem C10_countdown_range (n : ℕ) :
    (0 ≤ (countdownState n).1 ∧ (countdownState n).1 ≤ 30) ∧
    ((countdownState (n + 1)).1 = (countdownState n).1 - 1 ∨
      ((countdownState n).1 = 0 ∧ (countdownState (n + 1)).1 = 29)) := by
  constructor
  · cases n with
    | zero => decide
    | succ m =>
        have hb := countdownState_local_bounds m
        rw [countdownState_displayed m]
        omega
  · cases n with
    | zero => decide
    | succ m =>
        have hb := countdownState_local_bounds m
        rw [countdownState_displayed (m + 1), countdownState_succ m]
        simp only [updateTimer, countdown_interval_div]
        split_ifs with h <;> omega

end SpeedMonitor
